import Mathlib

/-!
Verification development for the scene-animation logic repository
(CORE math kernel, SpinL, Orbit and Effect processors).

Embedding conventions:
* JavaScript floating-point numbers are idealised as exact numbers.  The
  configuration-space arithmetic (clamping, percent conversion, the
  border-projection geometry, fade phases) is embedded polymorphically over a
  linear ordered field and instantiated at the rationals, so concrete runs are
  decidable; quantities that genuinely need square roots or trigonometry
  (orbit radius, phases, rotations) live in the reals.
* Sprites are mutable handles in the source; here each item carries the sprite
  state it writes (position and rotation), and processor methods become pure
  state-transformers.
* A JS value flowing into clampRpm60 is modelled by JSNum: a finite number,
  NaN, one of the infinities, or null/undefined (which the source coerces
  to 0 before the finiteness test).
-/

namespace Anim

/-- Model of a loosely-typed JS numeric input: a finite number, a non-finite
number, or a nullish value (null and undefined both coerce to 0). Other JS
types enter the numeric functions only through the Number(...) coercion, whose
result is again one of these shapes. -/
inductive JSNum where
  | num (q : ℚ)
  | nan
  | posInf
  | negInf
  | nullish
deriving DecidableEq

/-- The coercion performed by clampRpm60 before testing finiteness:
numbers (finite or not) pass through, null/undefined become 0. -/
def JSNum.coerceToNumber : JSNum → JSNum
  | .nullish => .num 0
  | v => v

/-- JS isFinite on a coerced value. -/
def JSNum.isFiniteB : JSNum → Bool
  | .num _ => true
  | _ => false

/-- Numeric payload of a JS number (junk value 0 for the non-finite shapes,
which clampRpm60 never reads). -/
def JSNum.val : JSNum → ℚ
  | .num q => q
  | _ => 0

/-- CORE math.ts clampRpm60: coerce, send non-finite and non-positive inputs
to 0, otherwise clamp into the interval from 0 to 60. -/
def clampRpm60 (v : JSNum) : ℚ :=
  let n := v.coerceToNumber
  if n.isFiniteB = false ∨ n.val ≤ 0 then 0 else min 60 (max 0 n.val)

/-- Math.abs. -/
def jsAbs {α : Type} [LinearOrderedField α] (x : α) : α :=
  if x < 0 then -x else x

/-- CORE math.ts clamp(n, min, max) = Math.max(min, Math.min(max, n)). -/
def clamp {α : Type} [LinearOrder α] (n lo hi : α) : α :=
  max lo (min hi n)

/-- Truncation toward zero, the rounding used by the JS remainder operator. -/
def jsTrunc {α : Type} [LinearOrderedField α] [FloorRing α] (x : α) : ℤ :=
  if 0 ≤ x then ⌊x⌋ else -⌊-x⌋

/-- The JS remainder a % b (sign follows the dividend). -/
def jsRem {α : Type} [LinearOrderedField α] [FloorRing α] (a b : α) : α :=
  a - b * (jsTrunc (a / b) : α)

/-- CORE math.ts normDeg: reduce a degree value into the interval
from 0 (inclusive) to 360 (exclusive). -/
def normDeg (deg : ℚ) : ℚ :=
  let d := jsRem deg 360
  if d < 0 then d + 360 else d

/-- CORE utils.ts percentToStageCoords. -/
def percentToStageCoords (xPct yPct w h : ℚ) : ℚ × ℚ :=
  (xPct / 100 * w, yPct / 100 * h)

/-- One parametric ray-edge intersection recorded by projectToRectBorder. -/
structure RayHit (α : Type) where
  t : α
  x : α
  y : α
deriving DecidableEq

/-- The candidate list built by projectToRectBorder (Orbit/index.ts lines
59 to 94): left and right edges are tried only when the absolute x-component
of the direction exceeds 1e-6, top and bottom only when the y-component does;
each hit must have a strictly positive parameter and the other coordinate
within the edge bounds extended by one unit. -/
def borderCandidates {α : Type} [LinearOrderedField α]
    (cx cy dx dy w h : α) : List (RayHit α) :=
  (if 1 / 1000000 < jsAbs dx then
    (if 0 < (0 - cx) / dx ∧ -1 ≤ cy + (0 - cx) / dx * dy ∧ cy + (0 - cx) / dx * dy ≤ h + 1 then
      [⟨(0 - cx) / dx, 0, cy + (0 - cx) / dx * dy⟩] else []) ++
    (if 0 < (w - cx) / dx ∧ -1 ≤ cy + (w - cx) / dx * dy ∧ cy + (w - cx) / dx * dy ≤ h + 1 then
      [⟨(w - cx) / dx, w, cy + (w - cx) / dx * dy⟩] else [])
  else []) ++
  (if 1 / 1000000 < jsAbs dy then
    (if 0 < (0 - cy) / dy ∧ -1 ≤ cx + (0 - cy) / dy * dx ∧ cx + (0 - cy) / dy * dx ≤ w + 1 then
      [⟨(0 - cy) / dy, cx + (0 - cy) / dy * dx, 0⟩] else []) ++
    (if 0 < (h - cy) / dy ∧ -1 ≤ cx + (h - cy) / dy * dx ∧ cx + (h - cy) / dy * dx ≤ w + 1 then
      [⟨(h - cy) / dy, cx + (h - cy) / dy * dx, h⟩] else [])
  else [])

/-- First element of minimal parameter, which is what sorting the candidate
list by the parameter with a stable sort and taking index 0 returns. -/
def firstMinByT {α : Type} [LinearOrder α] : RayHit α → List (RayHit α) → RayHit α
  | best, [] => best
  | best, c :: cs => firstMinByT (if c.t < best.t then c else best) cs

/-- Orbit/index.ts projectToRectBorder: points inside the rectangle are
returned unchanged; a point equal to the center is returned as the center;
otherwise the nearest guarded ray-edge intersection is returned, falling back
to per-coordinate clamping when no candidate survives. -/
def projectToRectBorder {α : Type} [LinearOrderedField α]
    (cx cy px py w h : α) : α × α :=
  if 0 ≤ px ∧ px ≤ w ∧ 0 ≤ py ∧ py ≤ h then (px, py)
  else if px - cx = 0 ∧ py - cy = 0 then (cx, cy)
  else
    match borderCandidates cx cy (px - cx) (py - cy) w h with
    | [] => (clamp px 0 w, clamp py 0 h)
    | c :: cs => ((firstMinByT c cs).x, (firstMinByT c cs).y)

/-- Modelled from the spec (reference algorithm of the border projection, for
comparison with the implementation): the parametric intersections of the ray
from the center through the point with all four rectangle edges, keeping only
those with positive parameter whose other coordinate falls within the edge
bounds with 1-unit tolerance.  A ray parallel to an edge pair has no
intersection with it. -/
def specBorderCandidates {α : Type} [LinearOrderedField α]
    (cx cy dx dy w h : α) : List (RayHit α) :=
  (if dx ≠ 0 then
    (if 0 < (0 - cx) / dx ∧ -1 ≤ cy + (0 - cx) / dx * dy ∧ cy + (0 - cx) / dx * dy ≤ h + 1 then
      [⟨(0 - cx) / dx, 0, cy + (0 - cx) / dx * dy⟩] else []) ++
    (if 0 < (w - cx) / dx ∧ -1 ≤ cy + (w - cx) / dx * dy ∧ cy + (w - cx) / dx * dy ≤ h + 1 then
      [⟨(w - cx) / dx, w, cy + (w - cx) / dx * dy⟩] else [])
  else []) ++
  (if dy ≠ 0 then
    (if 0 < (0 - cy) / dy ∧ -1 ≤ cx + (0 - cy) / dy * dx ∧ cx + (0 - cy) / dy * dx ≤ w + 1 then
      [⟨(0 - cy) / dy, cx + (0 - cy) / dy * dx, 0⟩] else []) ++
    (if 0 < (h - cy) / dy ∧ -1 ≤ cx + (h - cy) / dy * dx ∧ cx + (h - cy) / dy * dx ≤ w + 1 then
      [⟨(h - cy) / dy, cx + (h - cy) / dy * dx, h⟩] else [])
  else [])

/-- Modelled from the spec: the claimed reference projection.  Inside points
are returned unchanged; otherwise the smallest-parameter valid intersection is
selected; when no valid intersection exists the point is clamped into the
rectangle. -/
def specProjectToRectBorder {α : Type} [LinearOrderedField α]
    (cx cy px py w h : α) : α × α :=
  if 0 ≤ px ∧ px ≤ w ∧ 0 ≤ py ∧ py ≤ h then (px, py)
  else
    match specBorderCandidates cx cy (px - cx) (py - cy) w h with
    | [] => (clamp px 0 w, clamp py 0 h)
    | c :: cs => ((firstMinByT c cs).x, (firstMinByT c cs).y)

/-- The orbit radius derived from a projected start point, Math.hypot of the
offset from the center (createOrbitItem, Orbit/index.ts line 154). -/
noncomputable def derivedRadius (cx cy px py w h : ℚ) : ℝ :=
  Real.sqrt
    ((((projectToRectBorder cx cy px py w h).1 - cx : ℚ) : ℝ) ^ 2 +
     (((projectToRectBorder cx cy px py w h).2 - cy : ℚ) : ℝ) ^ 2)

/-- Math.atan2(y, x): the argument of the complex number x + y i, valued in
the half-open interval from -pi (exclusive) to pi (inclusive). -/
noncomputable def atan2 (y x : ℝ) : ℝ :=
  Complex.arg ⟨x, y⟩

/-- CORE math.ts toRad on a rational degree value. -/
noncomputable def toRad (deg : ℚ) : ℝ :=
  (deg : ℝ) * Real.pi / 180

/-- Rotation direction, the cw / ccw string union of the source. -/
inductive RotDirection where
  | cw
  | ccw
deriving DecidableEq

/-- Orbit orientation policy. -/
inductive OrientPolicy where
  | none
  | auto
  | override
deriving DecidableEq

/-- The slice of LayerConfig the animation processors read. -/
structure LayerConfig where
  id : String
  position : Option (ℚ × ℚ)
  scalePct : Option ℚ
  angleDeg : Option ℚ
  spinRPM : JSNum
  spinDir : Option RotDirection
  orbitRPM : JSNum
  orbitDir : Option RotDirection
  orbitCenter : Option (ℚ × ℚ)
  orbitPhaseDeg : JSNum
  orbitOrientPolicy : Option OrientPolicy
  orbitOrientDeg : JSNum

/-- A built layer: configuration plus the sprite state created for it.
Sprites are identified by a numeric handle for the per-sprite RPM map. -/
structure BuiltLayer where
  id : String
  spriteId : Nat
  spriteX : ℝ
  spriteY : ℝ
  spriteRotation : ℝ
  cfg : LayerConfig

/-- SpinL/index.ts rpmToRadPerSecond. -/
noncomputable def rpmToRadPerSecond (rpm : ℚ) : ℝ :=
  (rpm : ℝ) * Real.pi / 30

/-- SpinL/index.ts SpinConfig. -/
structure SpinConfig where
  rpm : ℚ
  direction : RotDirection
  enabled : Bool
deriving DecidableEq

/-- SpinL/index.ts createSpinConfig. -/
def createSpinConfig (cfg : LayerConfig) : SpinConfig :=
  { rpm := clampRpm60 cfg.spinRPM
    direction := if cfg.spinDir = some .ccw then .ccw else .cw
    enabled := decide (0 < clampRpm60 cfg.spinRPM) }

/-- SpinL/index.ts SpinItem; spriteRotation is the state of the sprite the
item writes. -/
structure SpinItem where
  spriteId : Nat
  layerId : String
  baseRotation : ℝ
  spriteRotation : ℝ
  radPerSecond : ℝ
  direction : ℤ
  rpm : ℚ
  active : Bool

/-- SpinL/index.ts createSpinItem. -/
noncomputable def createSpinItem (layer : BuiltLayer) : Option SpinItem :=
  let spinConfig := createSpinConfig layer.cfg
  if spinConfig.enabled = false then none
  else
    some
      { spriteId := layer.spriteId
        layerId := layer.id
        baseRotation := layer.spriteRotation
        spriteRotation := layer.spriteRotation
        radPerSecond := rpmToRadPerSecond spinConfig.rpm
        direction := if spinConfig.direction = .ccw then -1 else 1
        rpm := spinConfig.rpm
        active := true }

/-- SpinL/index.ts updateSpinItem: an active item gets its sprite rotation
set to baseRotation plus direction times angular rate times elapsed time;
an inactive item is left untouched. -/
noncomputable def updateSpinItem (item : SpinItem) (elapsedTime : ℝ) : SpinItem :=
  if item.active = false then item
  else
    { item with
        spriteRotation :=
          item.baseRotation + (item.direction : ℝ) * item.radPerSecond * elapsedTime }

/-- SpinL/index.ts buildSpinSystem: the spin items of the enabled layers and
the per-sprite RPM map recorded for every layer. -/
noncomputable def buildSpinSystem (layers : List BuiltLayer) :
    List SpinItem × List (Nat × ℚ) :=
  (layers.filterMap createSpinItem,
   layers.map fun layer => (layer.spriteId, (createSpinConfig layer.cfg).rpm))

/-- State of the SpinL processor. -/
structure SpinState where
  items : List SpinItem
  rpmBySprite : List (Nat × ℚ)
  elapsedTime : ℝ

/-- SpinLProcessor.init. -/
noncomputable def spinInit (layers : List BuiltLayer) : SpinState :=
  { items := (buildSpinSystem layers).1
    rpmBySprite := (buildSpinSystem layers).2
    elapsedTime := 0 }

/-- SpinLProcessor.tick: a no-op on an empty item list, otherwise the elapsed
time accumulates the delta and every item is updated at the new elapsed
time. -/
noncomputable def spinTick (s : SpinState) (deltaTime : ℝ) : SpinState :=
  match s.items with
  | [] => s
  | _ :: _ =>
    { s with
        elapsedTime := s.elapsedTime + deltaTime
        items := s.items.map fun i => updateSpinItem i (s.elapsedTime + deltaTime) }

/-- Mutation of the first item matched by a find-then-assign sequence in the
source: replace the first element satisfying the predicate, keep the rest. -/
def updateFirst {σ : Type} (p : σ → Bool) (f : σ → σ) : List σ → List σ
  | [] => []
  | i :: rest => if p i then f i :: rest else i :: updateFirst p f rest

/-- SpinLProcessor.updateRPM. -/
noncomputable def spinUpdateRPM (s : SpinState) (layerId : String) (rpm : JSNum) : SpinState :=
  { s with
      items :=
        updateFirst (fun i => i.layerId == layerId)
          (fun i =>
            { i with
                rpm := clampRpm60 rpm
                radPerSecond := rpmToRadPerSecond (clampRpm60 rpm)
                active := decide (0 < clampRpm60 rpm) })
          s.items }

/-- SpinLProcessor.toggleSpin. -/
def spinToggleSpin (s : SpinState) (layerId : String) : SpinState :=
  { s with
      items :=
        updateFirst (fun i => i.layerId == layerId)
          (fun i => { i with active := !i.active }) s.items }

/-- SpinLProcessor.setDirection. -/
def spinSetDirection (s : SpinState) (layerId : String) (d : RotDirection) : SpinState :=
  { s with
      items :=
        updateFirst (fun i => i.layerId == layerId)
          (fun i => { i with direction := if d = .ccw then -1 else 1 }) s.items }

/-- Orbit/index.ts OrbitConfig. -/
structure OrbitConfig where
  rpm : ℚ
  direction : RotDirection
  centerPercentX : ℚ
  centerPercentY : ℚ
  phaseDegrees : JSNum
  orientPolicy : OrientPolicy
  orientDegrees : JSNum
  enabled : Bool

/-- Orbit/index.ts createOrbitConfig. -/
def createOrbitConfig (cfg : LayerConfig) : OrbitConfig :=
  { rpm := clampRpm60 cfg.orbitRPM
    direction := if cfg.orbitDir = some .ccw then .ccw else .cw
    centerPercentX := clamp (cfg.orbitCenter.getD (50, 50)).1 0 100
    centerPercentY := clamp (cfg.orbitCenter.getD (50, 50)).2 0 100
    phaseDegrees := cfg.orbitPhaseDeg
    orientPolicy := cfg.orbitOrientPolicy.getD .none
    orientDegrees := cfg.orbitOrientDeg
    enabled := decide (0 < clampRpm60 cfg.orbitRPM) }

/-- Orbit/index.ts OrbitItem; spriteX, spriteY, spriteRotation are the state
of the sprite the item writes, centerX and centerY the centerPixels pair. -/
structure OrbitItem where
  spriteX : ℝ
  spriteY : ℝ
  spriteRotation : ℝ
  layerId : String
  cfgPosition : Option (ℚ × ℚ)
  direction : ℤ
  radPerSecond : ℝ
  centerPercentX : ℚ
  centerPercentY : ℚ
  centerX : ℚ
  centerY : ℚ
  radius : ℝ
  basePhase : ℝ
  orientPolicy : OrientPolicy
  orientRadians : ℝ
  spinRpm : ℚ
  active : Bool

/-- Orbit/index.ts createOrbitItem: none when the orbit is disabled or the
derived radius is not positive. -/
noncomputable def createOrbitItem (layer : BuiltLayer)
    (spinRpmBySprite : List (Nat × ℚ)) : Option OrbitItem :=
  let oc := createOrbitConfig layer.cfg
  if oc.enabled = false then none
  else
    let cc := percentToStageCoords oc.centerPercentX oc.centerPercentY 1024 1024
    let pos := layer.cfg.position.getD (0, 0)
    let sp := percentToStageCoords pos.1 pos.2 1024 1024
    let start := projectToRectBorder cc.1 cc.2 sp.1 sp.2 1024 1024
    let radius : ℝ :=
      Real.sqrt (((start.1 - cc.1 : ℚ) : ℝ) ^ 2 + ((start.2 - cc.2 : ℚ) : ℝ) ^ 2)
    if radius ≤ 0 then none
    else
      some
        { spriteX := layer.spriteX
          spriteY := layer.spriteY
          spriteRotation := layer.spriteRotation
          layerId := layer.id
          cfgPosition := layer.cfg.position
          direction := if oc.direction = .ccw then -1 else 1
          radPerSecond := (oc.rpm : ℝ) * Real.pi / 30
          centerPercentX := oc.centerPercentX
          centerPercentY := oc.centerPercentY
          centerX := cc.1
          centerY := cc.2
          radius := radius
          basePhase :=
            match oc.phaseDegrees with
            | .num d => toRad (normDeg d)
            | _ => atan2 ((start.2 - cc.2 : ℚ) : ℝ) ((start.1 - cc.1 : ℚ) : ℝ)
          orientPolicy := oc.orientPolicy
          orientRadians :=
            toRad (normDeg (match oc.orientDegrees with | .num d => d | _ => 0))
          spinRpm := ((List.lookup layer.spriteId spinRpmBySprite).getD 0)
          active := true }

/-- Orbit/index.ts updateOrbitItem: inactive items and items with
non-positive radius are untouched; otherwise position is set on the circle
and rotation is overwritten exactly under the orientation-policy guard. -/
noncomputable def updateOrbitItem (item : OrbitItem) (elapsedTime : ℝ) : OrbitItem :=
  if item.active = false ∨ item.radius ≤ 0 then item
  else
    { item with
        spriteX :=
          (item.centerX : ℝ) +
            item.radius *
              Real.cos (item.basePhase + (item.direction : ℝ) * item.radPerSecond * elapsedTime)
        spriteY :=
          (item.centerY : ℝ) +
            item.radius *
              Real.sin (item.basePhase + (item.direction : ℝ) * item.radPerSecond * elapsedTime)
        spriteRotation :=
          if item.orientPolicy = .override ∨ (item.orientPolicy = .auto ∧ item.spinRpm ≤ 0) then
            item.basePhase + (item.direction : ℝ) * item.radPerSecond * elapsedTime +
              item.orientRadians
          else item.spriteRotation }

/-- The center pixels recomputed from the stored center percentages
(recomputeOrbitItem, Orbit/index.ts line 217). -/
def recomputedCenter (item : OrbitItem) : ℚ × ℚ :=
  percentToStageCoords item.centerPercentX item.centerPercentY 1024 1024

/-- The start point reprojected from the fixed configured position
(recomputeOrbitItem, Orbit/index.ts lines 226 to 232). -/
def recomputedStart (item : OrbitItem) : ℚ × ℚ :=
  projectToRectBorder (recomputedCenter item).1 (recomputedCenter item).2
    (percentToStageCoords (item.cfgPosition.getD (0, 0)).1 (item.cfgPosition.getD (0, 0)).2
      1024 1024).1
    (percentToStageCoords (item.cfgPosition.getD (0, 0)).1 (item.cfgPosition.getD (0, 0)).2
      1024 1024).2
    1024 1024

/-- The radius recomputed by recomputeOrbitItem (Orbit/index.ts line 233). -/
noncomputable def recomputedRadius (item : OrbitItem) : ℝ :=
  Real.sqrt
    ((((recomputedStart item).1 - (recomputedCenter item).1 : ℚ) : ℝ) ^ 2 +
     (((recomputedStart item).2 - (recomputedCenter item).2 : ℚ) : ℝ) ^ 2)

/-- Orbit/index.ts recomputeOrbitItem: read the angle relative to the old
center, install the new center and radius, and when the new radius is
positive rebase the phase so the per-frame formula reproduces that angle at
the current elapsed time, repositioning the sprite on the new circle. -/
noncomputable def recomputeOrbitItem (item : OrbitItem) (elapsedTime : ℝ) : OrbitItem :=
  let cc := recomputedCenter item
  let oldAngle := atan2 (item.spriteY - (item.centerY : ℝ)) (item.spriteX - (item.centerX : ℝ))
  let newRadius := recomputedRadius item
  if 0 < newRadius then
    { item with
        centerX := cc.1
        centerY := cc.2
        radius := newRadius
        basePhase := oldAngle - (item.direction : ℝ) * item.radPerSecond * elapsedTime
        spriteX := (cc.1 : ℝ) + newRadius * Real.cos oldAngle
        spriteY := (cc.2 : ℝ) + newRadius * Real.sin oldAngle }
  else
    { item with centerX := cc.1, centerY := cc.2, radius := newRadius }

/-- State of the Orbit processor. -/
structure OrbitState where
  items : List OrbitItem
  elapsedTime : ℝ

/-- OrbitProcessor.init: the spinRpmBySprite map passed to buildOrbitSystem
is freshly constructed and never filled from the SpinL processor
(Orbit/index.ts lines 282 to 289), so every created item snapshots the
default 0. -/
noncomputable def orbitProcessorInit (layers : List BuiltLayer) : OrbitState :=
  { items := layers.filterMap fun layer => createOrbitItem layer []
    elapsedTime := 0 }

/-- OrbitProcessor.updateRPM. -/
noncomputable def orbitUpdateRPM (s : OrbitState) (layerId : String) (rpm : JSNum) : OrbitState :=
  { s with
      items :=
        updateFirst (fun i => i.layerId == layerId)
          (fun i =>
            { i with
                radPerSecond := (clampRpm60 rpm : ℝ) * Real.pi / 30
                active := decide (0 < clampRpm60 rpm) })
          s.items }

/-- OrbitProcessor.setDirection. -/
def orbitSetDirection (s : OrbitState) (layerId : String) (d : RotDirection) : OrbitState :=
  { s with
      items :=
        updateFirst (fun i => i.layerId == layerId)
          (fun i => { i with direction := if d = .ccw then -1 else 1 }) s.items }

/-- OrbitProcessor.updateCenter: clamp the percentages, then recompute via
the resize algorithm at the processor's current elapsed time. -/
noncomputable def orbitUpdateCenter (s : OrbitState) (layerId : String)
    (cX cY : ℚ) : OrbitState :=
  { s with
      items :=
        updateFirst (fun i => i.layerId == layerId)
          (fun i =>
            recomputeOrbitItem
              { i with centerPercentX := clamp cX 0 100, centerPercentY := clamp cY 0 100 }
              s.elapsedTime)
          s.items }

/-- EffectUtils.calculateFadeProgress (CORE/ticker.ts lines 666 to 677): the
phase is the elapsed time modulo the period, scaled to the unit interval, and
only the ping-pong shaping is controlled by the loop flag. -/
def calculateFadeProgress (elapsed durationMs : ℚ) (loop : Bool) : ℚ :=
  let T := durationMs / 1000
  if T ≤ 0 then 1
  else
    let phase := jsRem elapsed T / T
    if loop then
      if 1 / 2 < phase then 1 - (phase - 1 / 2) * 2 else phase * 2
    else phase

/-- Fade easing selector. -/
inductive Easing where
  | linear
  | sineInOut
deriving DecidableEq

/-- Pulse target property. -/
inductive PulseProp where
  | scale
  | alpha
deriving DecidableEq

/-- Tilt mode. -/
inductive TiltMode where
  | pointer
  | device
  | time
deriving DecidableEq

/-- Tilt axis selection. -/
inductive TiltAxis where
  | both
  | x
  | y
deriving DecidableEq

/-- Normalised fade spec (fromV and toV are the from and to fields). -/
structure FadeSpec where
  fromV : ℚ
  toV : ℚ
  durationMs : ℚ
  loop : Bool
  easing : Easing

/-- Normalised pulse spec. -/
structure PulseSpec where
  property : PulseProp
  amp : ℚ
  periodMs : ℚ
  phaseDeg : ℚ

/-- Normalised tilt spec. -/
structure TiltSpec where
  mode : TiltMode
  axis : TiltAxis
  maxDeg : ℚ
  periodMs : ℚ

/-- A basic effect entry of a layer's parsed list. -/
inductive BasicSpec where
  | fade (s : FadeSpec)
  | pulse (s : PulseSpec)
  | tilt (s : TiltSpec)

/-- One step of the fold in the basic-effects tick (CORE/ticker.ts lines 328
to 377) over the accumulator (alpha, scaleMul, tiltRad). -/
noncomputable def applyBasicEffect (pointerX pointerY elapsed : ℝ)
    (acc : ℝ × ℝ × ℝ) : BasicSpec → ℝ × ℝ × ℝ
  | .fade s =>
      if (s.durationMs : ℝ) / 1000 ≤ 0 then acc
      else
        ((s.fromV : ℝ) +
            ((s.toV : ℝ) - (s.fromV : ℝ)) *
              (let phase0 := jsRem elapsed ((s.durationMs : ℝ) / 1000) / ((s.durationMs : ℝ) / 1000)
               let phase :=
                 if s.loop then
                   if 1 / 2 < phase0 then 1 - (phase0 - 1 / 2) * 2 else phase0 * 2
                 else phase0
               match s.easing with
               | .sineInOut => 1 / 2 - 1 / 2 * Real.cos (Real.pi * 2 * phase)
               | .linear => phase),
          acc.2.1, acc.2.2)
  | .pulse s =>
      if (s.periodMs : ℝ) / 1000 ≤ 0 then acc
      else
        match s.property with
        | .scale =>
            (acc.1,
              acc.2.1 *
                (1 + (s.amp : ℝ) *
                  Real.sin (2 * Real.pi / ((s.periodMs : ℝ) / 1000) * elapsed +
                    (s.phaseDeg : ℝ) * Real.pi / 180)),
              acc.2.2)
        | .alpha =>
            (acc.1 *
                max 0 (min 1
                  (1 + (s.amp : ℝ) *
                    Real.sin (2 * Real.pi / ((s.periodMs : ℝ) / 1000) * elapsed +
                      (s.phaseDeg : ℝ) * Real.pi / 180))),
              acc.2.1, acc.2.2)
  | .tilt s =>
      match s.mode with
      | .time =>
          if 0 < (s.periodMs : ℝ) / 1000 then
            (acc.1, acc.2.1,
              acc.2.2 +
                (s.maxDeg : ℝ) * Real.sin (2 * Real.pi / ((s.periodMs : ℝ) / 1000) * elapsed) *
                  Real.pi / 180)
          else acc
      | _ =>
          (acc.1, acc.2.1,
            acc.2.2 +
              max (-(s.maxDeg : ℝ))
                  (min (s.maxDeg : ℝ)
                    ((match s.axis with
                      | .x => (pointerY - 1 / 2) * 2
                      | .y => -((pointerX - 1 / 2) * 2)
                      | .both =>
                          ((pointerY - 1 / 2) * 2 + -((pointerX - 1 / 2) * 2)) / 2) *
                      (s.maxDeg : ℝ))) *
                Real.pi / 180)

/-- The folded (alpha, scaleMul, tiltRad) triple of one basic item's tick. -/
noncomputable def basicTickValues (specs : List BasicSpec)
    (pointerX pointerY elapsed baseAlpha : ℝ) : ℝ × ℝ × ℝ :=
  specs.foldl (applyBasicEffect pointerX pointerY elapsed) (baseAlpha, 1, 0)

/-- The alpha actually written to the sprite by the basic tick
(CORE/ticker.ts line 381): the folded alpha clamped into the unit
interval. -/
noncomputable def basicWrittenAlpha (specs : List BasicSpec)
    (pointerX pointerY elapsed baseAlpha : ℝ) : ℝ :=
  max 0 (min 1 (basicTickValues specs pointerX pointerY elapsed baseAlpha).1)

/-- Raw glow effect configuration (optional fields as authored). -/
structure GlowRaw where
  color : Option ℤ
  alpha : Option ℚ
  scale : Option ℚ
  pulseMs : Option ℚ

/-- Normalised glow spec. -/
structure GlowSpec where
  color : ℤ
  alpha : ℚ
  scale : ℚ
  pulseMs : Option ℚ

/-- EffectNormalizers.glow. -/
def normalizeGlow (e : GlowRaw) : GlowSpec :=
  { color := e.color.getD 0xffff00
    alpha := e.alpha.getD (2 / 5)
    scale := e.scale.getD (3 / 20)
    pulseMs := e.pulseMs }

/-- The alpha written to a freshly created glow aura drawable
(CORE/ticker.ts line 433): the normalised config alpha, with no clamping. -/
def glowAuraCreationAlpha (g : GlowSpec) : ℚ :=
  g.alpha

/-- Raw bloom effect configuration. -/
structure BloomRaw where
  strength : Option ℚ
  threshold : Option ℚ

/-- Normalised bloom spec. -/
structure BloomSpec where
  strength : ℚ
  threshold : ℚ

/-- EffectNormalizers.bloom. -/
def normalizeBloom (e : BloomRaw) : BloomSpec :=
  { strength := e.strength.getD (3 / 5)
    threshold := e.threshold.getD (1 / 2) }

/-- The alpha written to a freshly created bloom aura drawable
(CORE/ticker.ts line 455): capped above at 1 but not below at 0. -/
def bloomAuraCreationAlpha (b : BloomSpec) : ℚ :=
  min 1 (3 / 10 + b.strength * (2 / 5))

/-- The alpha written by the shockwave fade branch of the advanced tick
(CORE/ticker.ts line 533). -/
noncomputable def shockwaveFadeAlpha (periodMs : ℚ) (elapsed : ℝ) : ℝ :=
  4 / 5 +
    1 / 5 *
      Real.cos (Real.pi *
        (jsRem elapsed ((periodMs : ℝ) / 1000) / ((periodMs : ℝ) / 1000)))

/-- A concrete active spin item: RPM 30, clockwise, base rotation 0. -/
noncomputable def spinDemoItem : SpinItem :=
  { spriteId := 0
    layerId := "spin1"
    baseRotation := 0
    spriteRotation := 0
    radPerSecond := rpmToRadPerSecond 30
    direction := 1
    rpm := 30
    active := true }

/-- A spin-processor state with no items. -/
noncomputable def emptySpinState : SpinState :=
  { items := [], rpmBySprite := [], elapsedTime := 0 }

/-- An orbit-processor state with no items. -/
noncomputable def emptyOrbitState : OrbitState :=
  { items := [], elapsedTime := 0 }

/-- A concrete inactive orbit item whose orientation policy is override. -/
noncomputable def inactiveOverrideItem : OrbitItem :=
  { spriteX := 0
    spriteY := 0
    spriteRotation := 0
    layerId := "orb1"
    cfgPosition := none
    direction := 1
    radPerSecond := 0
    centerPercentX := 50
    centerPercentY := 50
    centerX := 512
    centerY := 512
    radius := 1
    basePhase := 0
    orientPolicy := .override
    orientRadians := 1
    spinRpm := 0
    active := false }

/-- A concrete active orbit item with positive radius and override policy. -/
noncomputable def activeOverrideItem : OrbitItem :=
  { inactiveOverrideItem with layerId := "orb2", active := true }

/-- A concrete active orbit item whose orientation policy is none. -/
noncomputable def activeNoneItem : OrbitItem :=
  { inactiveOverrideItem with layerId := "orb3", orientPolicy := .none, active := true }

/-- A concrete orbit item for the resize-preservation witness: center
percentages (0,0), configured position (100,0), sprite at (1,0). -/
noncomputable def resizeDemoItem : OrbitItem :=
  { spriteX := 1
    spriteY := 0
    spriteRotation := 0
    layerId := "orb4"
    cfgPosition := some (100, 0)
    direction := 1
    radPerSecond := 0
    centerPercentX := 0
    centerPercentY := 0
    centerX := 0
    centerY := 0
    radius := 1
    basePhase := 0
    orientPolicy := .none
    orientRadians := 0
    spinRpm := 0
    active := true }

/-- The failing scene for the spin-snapshot claim: a single layer with
spinRPM 30 and orbitRPM 10, positioned at (0,0) with the default orbit
center. -/
noncomputable def snapshotDemoLayer : BuiltLayer :=
  { id := "l1"
    spriteId := 0
    spriteX := 0
    spriteY := 0
    spriteRotation := 0
    cfg :=
      { id := "l1"
        position := some (0, 0)
        scalePct := none
        angleDeg := none
        spinRPM := .num 30
        spinDir := some .cw
        orbitRPM := .num 10
        orbitDir := some .cw
        orbitCenter := none
        orbitPhaseDeg := .nullish
        orbitOrientPolicy := some .auto
        orbitOrientDeg := .nullish } }

end Anim

namespace Anim

lemma jsTrunc_of_nonneg {α : Type} [LinearOrderedField α] [FloorRing α]
    {x : α} (h : 0 ≤ x) : jsTrunc x = ⌊x⌋ := by
  simp [jsTrunc, h]

lemma jsRem_of_nonneg_lt {α : Type} [LinearOrderedField α] [FloorRing α]
    {a b : α} (ha : 0 ≤ a) (hab : a < b) : jsRem a b = a := by
  have hb : 0 < b := lt_of_le_of_lt ha hab
  have hq0 : 0 ≤ a / b := div_nonneg ha hb.le
  have hq1 : a / b < 1 := (div_lt_one hb).mpr hab
  have hfl : ⌊a / b⌋ = 0 := Int.floor_eq_zero_iff.mpr ⟨hq0, hq1⟩
  simp [jsRem, jsTrunc_of_nonneg hq0, hfl]

lemma jsRem_add_period {α : Type} [LinearOrderedField α] [FloorRing α]
    {a b : α} (ha : 0 ≤ a) (hb : 0 < b) : jsRem (a + b) b = jsRem a b := by
  have hbne : b ≠ 0 := hb.ne'
  have hdiv : (a + b) / b = a / b + 1 := by field_simp
  have hq0 : 0 ≤ a / b := div_nonneg ha hb.le
  have hq0' : (0:α) ≤ a / b + 1 := by linarith
  have h1 : jsTrunc ((a + b) / b) = ⌊a / b⌋ + 1 := by
    rw [hdiv, jsTrunc_of_nonneg hq0', Int.floor_add_one]
  have h2 : jsTrunc (a / b) = ⌊a / b⌋ := jsTrunc_of_nonneg hq0
  simp only [jsRem, h1, h2]
  push_cast
  ring

lemma jsRem_nonneg {α : Type} [LinearOrderedField α] [FloorRing α]
    {a b : α} (ha : 0 ≤ a) (hb : 0 < b) : 0 ≤ jsRem a b := by
  have hq0 : 0 ≤ a / b := div_nonneg ha hb.le
  have : jsRem a b = b * Int.fract (a / b) := by
    simp only [jsRem, jsTrunc_of_nonneg hq0, Int.fract]
    field_simp
  rw [this]
  exact mul_nonneg hb.le (Int.fract_nonneg _)

lemma jsRem_lt {α : Type} [LinearOrderedField α] [FloorRing α]
    {a b : α} (ha : 0 ≤ a) (hb : 0 < b) : jsRem a b < b := by
  have hq0 : 0 ≤ a / b := div_nonneg ha hb.le
  have : jsRem a b = b * Int.fract (a / b) := by
    simp only [jsRem, jsTrunc_of_nonneg hq0, Int.fract]
    field_simp
  rw [this]
  calc b * Int.fract (a / b) < b * 1 := by
        exact (mul_lt_mul_left hb).mpr (Int.fract_lt_one _)
    _ = b := mul_one b

lemma clampRpm60_num (q : ℚ) :
    clampRpm60 (.num q) = if q ≤ 0 then 0 else min 60 (max 0 q) := by
  simp [clampRpm60, JSNum.coerceToNumber, JSNum.isFiniteB, JSNum.val]

lemma clampRpm60_num_of_nonpos {q : ℚ} (h : q ≤ 0) : clampRpm60 (.num q) = 0 := by
  rw [clampRpm60_num, if_pos h]

lemma clampRpm60_num_identity {q : ℚ} (h0 : 0 ≤ q) (h60 : q ≤ 60) :
    clampRpm60 (.num q) = q := by
  rcases eq_or_lt_of_le h0 with h | h
  · rw [clampRpm60_num_of_nonpos (le_of_eq h.symm), h]
  · rw [clampRpm60_num, if_neg (not_le.mpr h), max_eq_right h0, min_eq_right h60]

/-- Claim C7: clampRpm60 always lands in the closed interval from 0 to 60,
collapses non-finite and non-positive inputs to 0, and is the identity (hence
monotone) on valid inputs between 0 and 60. -/
theorem clampRpm60_range_and_identity :
    (∀ v : JSNum, 0 ≤ clampRpm60 v ∧ clampRpm60 v ≤ 60) ∧
    (∀ v : JSNum, v.coerceToNumber.isFiniteB = false → clampRpm60 v = 0) ∧
    (∀ q : ℚ, q ≤ 0 → clampRpm60 (.num q) = 0) ∧
    (∀ q : ℚ, 0 ≤ q → q ≤ 60 → clampRpm60 (.num q) = q) ∧
    (∀ q r : ℚ, 0 ≤ q → q ≤ r → r ≤ 60 → clampRpm60 (.num q) ≤ clampRpm60 (.num r)) := by
  refine ⟨?_, ?_, fun q h => clampRpm60_num_of_nonpos h,
    fun q h0 h60 => clampRpm60_num_identity h0 h60, ?_⟩
  · intro v
    rcases v with q | _ | _ | _ | _
    · by_cases h : q ≤ 0
      · rw [clampRpm60_num_of_nonpos h]
        norm_num
      · rw [clampRpm60_num, if_neg h]
        exact ⟨le_min (by norm_num) (le_max_left 0 q), min_le_left _ _⟩
    all_goals simp [clampRpm60, JSNum.coerceToNumber, JSNum.isFiniteB, JSNum.val]
  · intro v h
    rcases v with q | _ | _ | _ | _
    · simp [JSNum.coerceToNumber, JSNum.isFiniteB] at h
    all_goals simp [clampRpm60, JSNum.coerceToNumber, JSNum.isFiniteB, JSNum.val]
  · intro q r hq hqr hr
    rw [clampRpm60_num_identity hq (hqr.trans hr),
      clampRpm60_num_identity (hq.trans hqr) hr]
    exact hqr

/-- Witness for claim C7 at concrete inputs. -/
theorem clampRpm60_range_and_identity_witness :
    (0 ≤ clampRpm60 (.num 30) ∧ clampRpm60 (.num 30) ≤ 60) ∧
    clampRpm60 .nan = 0 ∧
    clampRpm60 (.num (-5)) = 0 ∧
    clampRpm60 (.num 30) = 30 ∧
    clampRpm60 (.num 10) ≤ clampRpm60 (.num 30) :=
  ⟨clampRpm60_range_and_identity.1 _,
   clampRpm60_range_and_identity.2.1 _ (by decide),
   clampRpm60_range_and_identity.2.2.1 _ (by norm_num),
   clampRpm60_range_and_identity.2.2.2.1 _ (by norm_num) (by norm_num),
   clampRpm60_range_and_identity.2.2.2.2 _ _ (by norm_num) (by norm_num) (by norm_num)⟩

lemma fadeProgress_periodic (e d : ℚ) (b : Bool) (he : 0 ≤ e) (hd : 0 < d) :
    calculateFadeProgress (e + d / 1000) d b = calculateFadeProgress e d b := by
  have hT : 0 < d / 1000 := by positivity
  simp only [calculateFadeProgress, if_neg (not_le.mpr hT),
    jsRem_add_period he hT]

lemma fadeProgress_unlooped (e d : ℚ) (he : 0 ≤ e) (hed : e < d / 1000) :
    calculateFadeProgress e d false = e / (d / 1000) := by
  have hT : 0 < d / 1000 := lt_of_le_of_lt he hed
  simp only [calculateFadeProgress, if_neg (not_le.mpr hT),
    jsRem_of_nonneg_lt he hed, Bool.false_eq_true, if_false]

lemma fadeProgress_rising (e d : ℚ) (hd : 0 < d) (he : 0 ≤ e)
    (hed : 2 * e ≤ d / 1000) :
    calculateFadeProgress e d true = 2 * (e / (d / 1000)) := by
  have hT : 0 < d / 1000 := by positivity
  have hlt : e < d / 1000 := by linarith
  have hhalf : e / (d / 1000) ≤ 1 / 2 := by
    rw [div_le_iff hT]
    linarith
  simp only [calculateFadeProgress, if_neg (not_le.mpr hT),
    jsRem_of_nonneg_lt he hlt, if_true, if_neg (not_lt.mpr hhalf)]
  ring

lemma fadeProgress_falling (e d : ℚ) (hed2 : d / 1000 < 2 * e)
    (hed : e < d / 1000) :
    calculateFadeProgress e d true = 2 * (1 - e / (d / 1000)) := by
  have he : 0 ≤ e := by
    by_contra hneg
    push_neg at hneg
    have : d / 1000 < 0 := by linarith
    linarith
  have hT : 0 < d / 1000 := lt_of_le_of_lt he hed
  have hhalf : 1 / 2 < e / (d / 1000) := by
    rw [lt_div_iff hT]
    linarith
  simp only [calculateFadeProgress, if_neg (not_le.mpr hT),
    jsRem_of_nonneg_lt he hed, if_true, if_pos hhalf]
  ring

/-- Claim C5: the fade phase is elapsed time modulo the period whatever the
loop flag (so an unlooped fade re-triggers every period), the loop flag only
ping-pongs the phase (rising to 1 at the midpoint, then falling), and the
concrete round-trip 0 s, 0.5 s, 1 s with a 1000 ms duration gives phases
0, 1, 0. -/
theorem calculateFadeProgress_spec :
    (∀ (e d : ℚ) (b : Bool), 0 ≤ e → 0 < d →
        calculateFadeProgress (e + d / 1000) d b = calculateFadeProgress e d b) ∧
    (∀ e d : ℚ, 0 ≤ e → e < d / 1000 →
        calculateFadeProgress e d false = e / (d / 1000)) ∧
    (∀ e d : ℚ, 0 < d → 0 ≤ e → 2 * e ≤ d / 1000 →
        calculateFadeProgress e d true = 2 * (e / (d / 1000))) ∧
    (∀ e d : ℚ, d / 1000 < 2 * e → e < d / 1000 →
        calculateFadeProgress e d true = 2 * (1 - e / (d / 1000))) ∧
    calculateFadeProgress 0 1000 true = 0 ∧
    calculateFadeProgress (1 / 2) 1000 true = 1 ∧
    calculateFadeProgress 1 1000 true = 0 := by
  have h00 : calculateFadeProgress 0 1000 true = 0 := by
    rw [fadeProgress_rising 0 1000 (by norm_num) (by norm_num) (by norm_num)]
    norm_num
  have h05 : calculateFadeProgress (1 / 2) 1000 true = 1 := by
    rw [fadeProgress_rising (1 / 2) 1000 (by norm_num) (by norm_num) (by norm_num)]
    norm_num
  have h10 : calculateFadeProgress 1 1000 true = 0 := by
    have hp := fadeProgress_periodic 0 1000 true (le_refl 0) (by norm_num)
    norm_num at hp
    rw [hp]
    exact h00
  exact ⟨fadeProgress_periodic, fadeProgress_unlooped, fadeProgress_rising,
    fadeProgress_falling, h00, h05, h10⟩

/-- Witness for claim C5 at concrete inputs. -/
theorem calculateFadeProgress_spec_witness :
    calculateFadeProgress (1 / 4 + 1000 / 1000) 1000 false =
      calculateFadeProgress (1 / 4) 1000 false ∧
    calculateFadeProgress (1 / 4) 1000 false = (1 / 4) / (1000 / 1000) ∧
    calculateFadeProgress (1 / 4) 1000 true = 2 * ((1 / 4) / (1000 / 1000)) ∧
    calculateFadeProgress (3 / 4) 1000 true = 2 * (1 - (3 / 4) / (1000 / 1000)) :=
  ⟨calculateFadeProgress_spec.1 _ _ _ (by norm_num) (by norm_num),
   calculateFadeProgress_spec.2.1 _ _ (by norm_num) (by norm_num),
   calculateFadeProgress_spec.2.2.1 _ _ (by norm_num) (by norm_num) (by norm_num),
   calculateFadeProgress_spec.2.2.2.1 _ _ (by norm_num) (by norm_num)⟩


lemma firstMinByT_mem {α : Type} [LinearOrder α] :
    ∀ (cs : List (RayHit α)) (c : RayHit α), firstMinByT c cs ∈ c :: cs
  | [], c => by simp [firstMinByT]
  | d :: ds, c => by
    simp only [firstMinByT]
    have h := firstMinByT_mem ds (if d.t < c.t then d else c)
    rcases List.mem_cons.mp h with h1 | h1
    · rw [h1]
      split_ifs
      · exact List.mem_cons_of_mem _ (List.mem_cons_self _ _)
      · exact List.mem_cons_self _ _
    · exact List.mem_cons_of_mem _ (List.mem_cons_of_mem _ h1)

lemma firstMinByT_le {α : Type} [LinearOrder α] :
    ∀ (cs : List (RayHit α)) (c : RayHit α), ∀ e ∈ c :: cs, (firstMinByT c cs).t ≤ e.t
  | [], c => by
    intro e he
    rcases List.mem_cons.mp he with rfl | he1
    · exact le_refl _
    · exact absurd he1 (List.not_mem_nil e)
  | d :: ds, c => by
    intro e he
    simp only [firstMinByT]
    have hminc : (if d.t < c.t then d else c).t ≤ c.t := by
      split_ifs with h
      · exact le_of_lt h
      · exact le_refl _
    have hmind : (if d.t < c.t then d else c).t ≤ d.t := by
      split_ifs with h
      · exact le_refl _
      · exact not_lt.mp h
    rcases List.mem_cons.mp he with rfl | he1
    · exact le_trans (firstMinByT_le ds _ _ (List.mem_cons_self _ _)) hminc
    · rcases List.mem_cons.mp he1 with rfl | he2
      · exact le_trans (firstMinByT_le ds _ _ (List.mem_cons_self _ _)) hmind
      · exact firstMinByT_le ds _ _ (List.mem_cons_of_mem _ he2)

/-- Claim C1, amended.  The implementation realises the reference
border-projection algorithm up to two implementation details the claim's
wording omits: (a) the vertical edges are only considered when the direction's
x-component exceeds 1e-6 in absolute value, and the horizontal edges only when
the y-component does, so near-axis-parallel rays can fall back to clamping
even though an unguarded ray-edge intersection exists; (b) an outside point
that coincides with the center is returned as-is, not clamped.  With those
guards: inside points are returned unchanged; otherwise the first
smallest-parameter candidate is returned when one exists, else the clamped
point.  The concrete cases hold: with center (512,512), the point (512,50) is
returned unchanged with derived radius 462, and the point (512,-100) projects
to (512,0) with derived radius 512. -/
theorem projectToRectBorder_spec :
    (∀ cx cy px py w h : ℚ, 0 ≤ px → px ≤ w → 0 ≤ py → py ≤ h →
        projectToRectBorder cx cy px py w h = (px, py)) ∧
    (∀ cx cy px py w h : ℚ, ¬(0 ≤ px ∧ px ≤ w ∧ 0 ≤ py ∧ py ≤ h) →
        px - cx = 0 → py - cy = 0 →
        projectToRectBorder cx cy px py w h = (cx, cy)) ∧
    (∀ cx cy px py w h : ℚ, ¬(0 ≤ px ∧ px ≤ w ∧ 0 ≤ py ∧ py ≤ h) →
        ¬(px - cx = 0 ∧ py - cy = 0) →
        ∀ c cs, borderCandidates cx cy (px - cx) (py - cy) w h = c :: cs →
        ∃ m ∈ c :: cs, projectToRectBorder cx cy px py w h = (m.x, m.y) ∧
          ∀ e ∈ c :: cs, m.t ≤ e.t) ∧
    (∀ cx cy px py w h : ℚ, ¬(0 ≤ px ∧ px ≤ w ∧ 0 ≤ py ∧ py ≤ h) →
        ¬(px - cx = 0 ∧ py - cy = 0) →
        borderCandidates cx cy (px - cx) (py - cy) w h = [] →
        projectToRectBorder cx cy px py w h = (clamp px 0 w, clamp py 0 h)) ∧
    projectToRectBorder (512 : ℚ) 512 512 50 1024 1024 = (512, 50) ∧
    derivedRadius 512 512 512 50 1024 1024 = 462 ∧
    projectToRectBorder (512 : ℚ) 512 512 (-100) 1024 1024 = (512, 0) ∧
    derivedRadius 512 512 512 (-100) 1024 1024 = 512 := by
  have hin : projectToRectBorder (512 : ℚ) 512 512 50 1024 1024 = (512, 50) := by
    norm_num [projectToRectBorder, borderCandidates, firstMinByT, clamp, jsAbs]
  have hout : projectToRectBorder (512 : ℚ) 512 512 (-100) 1024 1024 = (512, 0) := by
    norm_num [projectToRectBorder, borderCandidates, firstMinByT, clamp, jsAbs]
  refine ⟨?_, ?_, ?_, ?_, hin, ?_, hout, ?_⟩
  · intro cx cy px py w h h1 h2 h3 h4
    simp only [projectToRectBorder, if_pos (And.intro h1 (And.intro h2 (And.intro h3 h4)))]
  · intro cx cy px py w h hout1 hdx hdy
    simp only [projectToRectBorder, if_neg hout1, if_pos (And.intro hdx hdy)]
  · intro cx cy px py w h hout1 hd c cs hcands
    simp only [projectToRectBorder, if_neg hout1, if_neg hd, hcands]
    exact ⟨firstMinByT c cs, firstMinByT_mem cs c, rfl, firstMinByT_le cs c⟩
  · intro cx cy px py w h hout1 hd hcands
    simp only [projectToRectBorder, if_neg hout1, if_neg hd, hcands]
  · simp only [derivedRadius, hin]
    norm_num
    rw [show (213444 : ℝ) = 462 ^ 2 by norm_num]
    exact Real.sqrt_sq (by norm_num)
  · simp only [derivedRadius, hout]
    norm_num
    rw [show (262144 : ℝ) = 512 ^ 2 by norm_num]
    exact Real.sqrt_sq (by norm_num)

/-- Counterexample to claim C1 as stated: for center (500,-1) and the outside
point (500 + 1e-7, -1 + 1e-6), the reference algorithm of the claim has a
valid ray-edge intersection (the top-edge hit at (500.1, 0)), but the
implementation's 1e-6 direction guards discard all four edges and it clamps
instead, returning a different point. -/
theorem projectToRectBorder_epsilon_counterexample :
    specBorderCandidates (500 : ℚ) (-1) ((500 + 1 / 10000000) - 500)
        ((-1 + 1 / 1000000) - (-1)) 1024 1024 ≠ [] ∧
    specProjectToRectBorder (500 : ℚ) (-1) (500 + 1 / 10000000) (-1 + 1 / 1000000)
        1024 1024 = (5001 / 10, 0) ∧
    projectToRectBorder (500 : ℚ) (-1) (500 + 1 / 10000000) (-1 + 1 / 1000000)
        1024 1024 = (500 + 1 / 10000000, 0) ∧
    ((5001 / 10 : ℚ), (0 : ℚ)) ≠ (500 + 1 / 10000000, 0) := by
  refine ⟨?_, ?_, ?_, by norm_num⟩
  · norm_num [specBorderCandidates]
    simp
  · norm_num [specProjectToRectBorder, specBorderCandidates, firstMinByT, clamp]
  · norm_num [projectToRectBorder, borderCandidates, firstMinByT, clamp, jsAbs]

/-- Witness for claim C1 at concrete inputs: one run through each branch of
the amended statement. -/
theorem projectToRectBorder_spec_witness :
    projectToRectBorder (512 : ℚ) 512 100 200 1024 1024 = (100, 200) ∧
    projectToRectBorder (2000 : ℚ) 2000 2000 2000 1024 1024 = (2000, 2000) ∧
    (∃ m ∈ [({ t := 128 / 153, x := 512, y := 0 } : RayHit ℚ)],
        projectToRectBorder (512 : ℚ) 512 512 (-100) 1024 1024 = (m.x, m.y) ∧
          ∀ e ∈ [({ t := 128 / 153, x := 512, y := 0 } : RayHit ℚ)], m.t ≤ e.t) ∧
    projectToRectBorder (500 : ℚ) (-1) (500 + 1 / 10000000) (-1 + 1 / 1000000)
        1024 1024 =
      (clamp (500 + 1 / 10000000) 0 1024, clamp (-1 + 1 / 1000000) 0 1024) :=
  ⟨projectToRectBorder_spec.1 512 512 100 200 1024 1024
     (by norm_num) (by norm_num) (by norm_num) (by norm_num),
   projectToRectBorder_spec.2.1 2000 2000 2000 2000 1024 1024
     (by norm_num) (by norm_num) (by norm_num),
   projectToRectBorder_spec.2.2.1 512 512 512 (-100) 1024 1024
     (by norm_num) (by norm_num) _ _
     (by norm_num [borderCandidates, jsAbs]),
   projectToRectBorder_spec.2.2.2.1 500 (-1) (500 + 1 / 10000000) (-1 + 1 / 1000000)
     1024 1024 (by norm_num) (by norm_num)
     (by norm_num [borderCandidates, jsAbs])⟩


lemma updateSpinItem_of_active {item : SpinItem} (h : item.active = true) (e : ℝ) :
    updateSpinItem item e =
      { item with
          spriteRotation :=
            item.baseRotation + (item.direction : ℝ) * item.radPerSecond * e } := by
  simp [updateSpinItem, h]

lemma spinTick_elapsedTime (s : SpinState) (d : ℝ) (h : s.items ≠ []) :
    (spinTick s d).elapsedTime = s.elapsedTime + d := by
  obtain ⟨items0, r, e⟩ := s
  cases items0 with
  | nil => exact absurd rfl h
  | cons i items => rfl

/-- Claim C6: an active spin item's tick writes rotation equal to
baseRotation plus direction times angular rate times elapsed seconds; the
processor's elapsed time accumulates each delta monotonically whenever items
exist; and at RPM 30 clockwise, one second advances the rotation by exactly
pi radians. -/
theorem updateSpinItem_formula :
    (∀ (item : SpinItem) (e : ℝ), item.active = true →
        (updateSpinItem item e).spriteRotation =
          item.baseRotation + (item.direction : ℝ) * item.radPerSecond * e) ∧
    (∀ (s : SpinState) (d : ℝ), s.items ≠ [] →
        (spinTick s d).elapsedTime = s.elapsedTime + d) ∧
    (∀ (s : SpinState) (d : ℝ), 0 ≤ d → s.items ≠ [] →
        s.elapsedTime ≤ (spinTick s d).elapsedTime) ∧
    (∀ item : SpinItem, item.active = true → item.direction = 1 →
        item.radPerSecond = rpmToRadPerSecond 30 →
        (updateSpinItem item 1).spriteRotation = item.baseRotation + Real.pi) := by
  refine ⟨?_, spinTick_elapsedTime, ?_, ?_⟩
  · intro item e h
    rw [updateSpinItem_of_active h]
  · intro s d hd h
    rw [spinTick_elapsedTime s d h]
    linarith
  · intro item h h1 hrad
    rw [updateSpinItem_of_active h]
    simp only [h1, hrad, rpmToRadPerSecond]
    push_cast
    ring

/-- Witness for claim C6 at concrete inputs. -/
theorem updateSpinItem_formula_witness :
    (updateSpinItem spinDemoItem 2).spriteRotation =
      spinDemoItem.baseRotation +
        (spinDemoItem.direction : ℝ) * spinDemoItem.radPerSecond * 2 ∧
    (spinTick { items := [spinDemoItem], rpmBySprite := [], elapsedTime := 0 } 1).elapsedTime
      = (0 : ℝ) + 1 ∧
    (0 : ℝ) ≤
      (spinTick { items := [spinDemoItem], rpmBySprite := [], elapsedTime := 0 } 1).elapsedTime ∧
    (updateSpinItem spinDemoItem 1).spriteRotation = spinDemoItem.baseRotation + Real.pi :=
  ⟨updateSpinItem_formula.1 spinDemoItem 2 rfl,
   updateSpinItem_formula.2.1
     { items := [spinDemoItem], rpmBySprite := [], elapsedTime := 0 } 1 (by simp),
   updateSpinItem_formula.2.2.1
     { items := [spinDemoItem], rpmBySprite := [], elapsedTime := 0 } 1
     (by norm_num) (by simp),
   updateSpinItem_formula.2.2.2 spinDemoItem rfl rfl rfl⟩

/-- Claim C10: toggling a spin item off does not pause the processor clock.
Starting from a single active item: after one tick, toggling off and ticking
leaves the rotation at its pre-toggle value while elapsed time still
accumulates; toggling back on, the next tick jumps the rotation to
baseRotation plus direction times rate times the total elapsed time, the
inactive interval included. -/
theorem spinToggle_does_not_pause_elapsed (i : SpinItem) (e0 d1 d2 d3 : ℝ)
    (ha : i.active = true) :
    ((spinTick { items := [i], rpmBySprite := [], elapsedTime := e0 } d1).elapsedTime
        = e0 + d1) ∧
    ((spinTick (spinToggleSpin
        (spinTick { items := [i], rpmBySprite := [], elapsedTime := e0 } d1)
        i.layerId) d2).elapsedTime = e0 + d1 + d2) ∧
    (∀ j ∈ (spinTick (spinToggleSpin
        (spinTick { items := [i], rpmBySprite := [], elapsedTime := e0 } d1)
        i.layerId) d2).items,
        j.spriteRotation =
          i.baseRotation + (i.direction : ℝ) * i.radPerSecond * (e0 + d1)) ∧
    ((spinTick (spinToggleSpin (spinTick (spinToggleSpin
        (spinTick { items := [i], rpmBySprite := [], elapsedTime := e0 } d1)
        i.layerId) d2) i.layerId) d3).elapsedTime = e0 + d1 + d2 + d3) ∧
    (∀ j ∈ (spinTick (spinToggleSpin (spinTick (spinToggleSpin
        (spinTick { items := [i], rpmBySprite := [], elapsedTime := e0 } d1)
        i.layerId) d2) i.layerId) d3).items,
        j.spriteRotation =
          i.baseRotation + (i.direction : ℝ) * i.radPerSecond * (e0 + d1 + d2 + d3)) := by
  have h1 : spinTick { items := [i], rpmBySprite := [], elapsedTime := e0 } d1 =
      { items := [updateSpinItem i (e0 + d1)], rpmBySprite := [], elapsedTime := e0 + d1 } :=
    rfl
  have hupd := updateSpinItem_of_active ha (e0 + d1)
  refine ⟨rfl, ?_, ?_, ?_, ?_⟩ <;>
    simp [h1, hupd, spinToggleSpin, updateFirst, spinTick, updateSpinItem, ha]

lemma updateFirst_of_no_match {σ : Type} (p : σ → Bool) (f : σ → σ) :
    ∀ l : List σ, (∀ i ∈ l, p i = false) → updateFirst p f l = l
  | [], _ => rfl
  | i :: rest, h => by
    simp only [updateFirst, h i (List.mem_cons_self i rest), Bool.false_eq_true, if_false]
    rw [updateFirst_of_no_match p f rest (fun j hj => h j (List.mem_cons_of_mem i hj))]

/-- Claim C9: every control operation that names a layer id not present in
the processor's items (Spin updateRPM, toggleSpin, setDirection; Orbit
updateRPM, setDirection, updateCenter) returns the state unchanged: no item
and no sprite field is modified, and no error is raised (the operations are
total functions). -/
theorem unknownId_ops_noop (layerId : String) :
    (∀ (s : SpinState) (rpm : JSNum), (∀ i ∈ s.items, i.layerId ≠ layerId) →
        spinUpdateRPM s layerId rpm = s) ∧
    (∀ s : SpinState, (∀ i ∈ s.items, i.layerId ≠ layerId) →
        spinToggleSpin s layerId = s) ∧
    (∀ (s : SpinState) (d : RotDirection), (∀ i ∈ s.items, i.layerId ≠ layerId) →
        spinSetDirection s layerId d = s) ∧
    (∀ (s : OrbitState) (rpm : JSNum), (∀ i ∈ s.items, i.layerId ≠ layerId) →
        orbitUpdateRPM s layerId rpm = s) ∧
    (∀ (s : OrbitState) (d : RotDirection), (∀ i ∈ s.items, i.layerId ≠ layerId) →
        orbitSetDirection s layerId d = s) ∧
    (∀ (s : OrbitState) (cX cY : ℚ), (∀ i ∈ s.items, i.layerId ≠ layerId) →
        orbitUpdateCenter s layerId cX cY = s) := by
  have hspin : ∀ (s : SpinState), (∀ i ∈ s.items, i.layerId ≠ layerId) →
      ∀ j ∈ s.items, (j.layerId == layerId) = false := fun s h j hj =>
    beq_eq_false_iff_ne.mpr (h j hj)
  have horbit : ∀ (s : OrbitState), (∀ i ∈ s.items, i.layerId ≠ layerId) →
      ∀ j ∈ s.items, (j.layerId == layerId) = false := fun s h j hj =>
    beq_eq_false_iff_ne.mpr (h j hj)
  refine ⟨?_, ?_, ?_, ?_, ?_, ?_⟩
  · intro s rpm h
    simp only [spinUpdateRPM, updateFirst_of_no_match _ _ s.items (hspin s h)]
  · intro s h
    simp only [spinToggleSpin, updateFirst_of_no_match _ _ s.items (hspin s h)]
  · intro s d h
    simp only [spinSetDirection, updateFirst_of_no_match _ _ s.items (hspin s h)]
  · intro s rpm h
    simp only [orbitUpdateRPM, updateFirst_of_no_match _ _ s.items (horbit s h)]
  · intro s d h
    simp only [orbitSetDirection, updateFirst_of_no_match _ _ s.items (horbit s h)]
  · intro s cX cY h
    simp only [orbitUpdateCenter, updateFirst_of_no_match _ _ s.items (horbit s h)]

/-- Witness for claim C9 at concrete inputs: the six operations on an
item-free state with an unknown id. -/
theorem unknownId_ops_noop_witness :
    spinUpdateRPM emptySpinState "ghost" (.num 10) = emptySpinState ∧
    spinToggleSpin emptySpinState "ghost" = emptySpinState ∧
    spinSetDirection emptySpinState "ghost" .ccw = emptySpinState ∧
    orbitUpdateRPM emptyOrbitState "ghost" (.num 10) = emptyOrbitState ∧
    orbitSetDirection emptyOrbitState "ghost" .ccw = emptyOrbitState ∧
    orbitUpdateCenter emptyOrbitState "ghost" 10 20 = emptyOrbitState :=
  ⟨(unknownId_ops_noop "ghost").1 emptySpinState _ (by simp [emptySpinState]),
   (unknownId_ops_noop "ghost").2.1 emptySpinState (by simp [emptySpinState]),
   (unknownId_ops_noop "ghost").2.2.1 emptySpinState _ (by simp [emptySpinState]),
   (unknownId_ops_noop "ghost").2.2.2.1 emptyOrbitState _ (by simp [emptyOrbitState]),
   (unknownId_ops_noop "ghost").2.2.2.2.1 emptyOrbitState _ (by simp [emptyOrbitState]),
   (unknownId_ops_noop "ghost").2.2.2.2.2 emptyOrbitState 10 20 (by simp [emptyOrbitState])⟩


lemma updateOrbitItem_inactive {item : OrbitItem} (h : item.active = false) (e : ℝ) :
    updateOrbitItem item e = item := by
  simp [updateOrbitItem, h]

lemma updateOrbitItem_preserves (item : OrbitItem) (e : ℝ) :
    (updateOrbitItem item e).orientPolicy = item.orientPolicy ∧
    (updateOrbitItem item e).spinRpm = item.spinRpm ∧
    (updateOrbitItem item e).active = item.active ∧
    (updateOrbitItem item e).radius = item.radius := by
  simp only [updateOrbitItem]
  split_ifs <;> exact ⟨rfl, rfl, rfl, rfl⟩

lemma orient_guard_false {item : OrbitItem}
    (h : item.orientPolicy = .none ∨ (item.orientPolicy = .auto ∧ 0 < item.spinRpm)) :
    ¬(item.orientPolicy = .override ∨ (item.orientPolicy = .auto ∧ item.spinRpm ≤ 0)) := by
  rcases h with h | ⟨h1, h2⟩
  · simp [h]
  · simp [h1, not_le.mpr h2]

lemma updateOrbitItem_rotation_untouched {item : OrbitItem}
    (h : item.orientPolicy = .none ∨ (item.orientPolicy = .auto ∧ 0 < item.spinRpm))
    (e : ℝ) :
    (updateOrbitItem item e).spriteRotation = item.spriteRotation := by
  simp only [updateOrbitItem]
  split_ifs with h1 h2
  · rfl
  · exact absurd h2 (orient_guard_false h)
  · rfl

/-- Claim C3, amended.  For an ACTIVE orbit item with positive radius (the
guard of the per-item update), the tick writes sprite rotation equal to
angle plus orientation offset exactly when the policy is override, or auto
with a snapshot spin rate at most 0; for any item whatsoever, when the
policy is none, or auto with a positive snapshot spin rate, the rotation is
left untouched across any number of simulated frames.  The claim's
unqualified form is false: an inactive item (or one with non-positive
radius) is skipped entirely, even under the override policy. -/
theorem updateOrbitItem_orientation_policy :
    (∀ (item : OrbitItem) (e : ℝ), item.active = true → 0 < item.radius →
        (item.orientPolicy = .override ∨
          (item.orientPolicy = .auto ∧ item.spinRpm ≤ 0)) →
        (updateOrbitItem item e).spriteRotation =
          item.basePhase + (item.direction : ℝ) * item.radPerSecond * e +
            item.orientRadians) ∧
    (∀ (item : OrbitItem) (e : ℝ), item.active = true → 0 < item.radius →
        ¬(item.orientPolicy = .override ∨
          (item.orientPolicy = .auto ∧ item.spinRpm ≤ 0)) →
        (updateOrbitItem item e).spriteRotation = item.spriteRotation) ∧
    (∀ (item : OrbitItem) (ts : List ℝ),
        (item.orientPolicy = .none ∨ (item.orientPolicy = .auto ∧ 0 < item.spinRpm)) →
        (ts.foldl updateOrbitItem item).spriteRotation = item.spriteRotation) := by
  have hguardneg : ∀ item : OrbitItem, item.active = true → 0 < item.radius →
      ¬(item.active = false ∨ item.radius ≤ 0) := by
    intro item h1 h2
    simp [h1, not_le.mpr h2]
  refine ⟨?_, ?_, ?_⟩
  · intro item e h1 h2 hpol
    simp only [updateOrbitItem, if_neg (hguardneg item h1 h2), if_pos hpol]
  · intro item e h1 h2 hpol
    simp only [updateOrbitItem, if_neg (hguardneg item h1 h2), if_neg hpol]
  · intro item ts hpol
    induction ts generalizing item with
    | nil => rfl
    | cons e ts ih =>
      have hpres := updateOrbitItem_preserves item e
      have hpol2 : (updateOrbitItem item e).orientPolicy = .none ∨
          ((updateOrbitItem item e).orientPolicy = .auto ∧
            0 < (updateOrbitItem item e).spinRpm) := by
        rw [hpres.1, hpres.2.1]
        exact hpol
      calc ((e :: ts).foldl updateOrbitItem item).spriteRotation
          = (ts.foldl updateOrbitItem (updateOrbitItem item e)).spriteRotation := rfl
        _ = (updateOrbitItem item e).spriteRotation := ih _ hpol2
        _ = item.spriteRotation := updateOrbitItem_rotation_untouched hpol e

/-- Counterexample to claim C3 as stated: an inactive item with the override
policy is left untouched by the orbit tick, so rotation is not written to
angle plus orientation offset even though the policy condition holds. -/
theorem updateOrbitItem_inactive_override_counterexample :
    inactiveOverrideItem.orientPolicy = OrientPolicy.override ∧
    (updateOrbitItem inactiveOverrideItem 0).spriteRotation =
      inactiveOverrideItem.spriteRotation ∧
    (updateOrbitItem inactiveOverrideItem 0).spriteRotation ≠
      inactiveOverrideItem.basePhase +
        (inactiveOverrideItem.direction : ℝ) * inactiveOverrideItem.radPerSecond * 0 +
        inactiveOverrideItem.orientRadians := by
  refine ⟨rfl, ?_, ?_⟩
  · rw [updateOrbitItem_inactive rfl]
  · rw [updateOrbitItem_inactive rfl]
    simp only [inactiveOverrideItem]
    norm_num

/-- Witness for claim C3 at concrete inputs. -/
theorem updateOrbitItem_orientation_policy_witness :
    (updateOrbitItem activeOverrideItem 2).spriteRotation =
      activeOverrideItem.basePhase +
        (activeOverrideItem.direction : ℝ) * activeOverrideItem.radPerSecond * 2 +
        activeOverrideItem.orientRadians ∧
    (updateOrbitItem activeNoneItem 2).spriteRotation = activeNoneItem.spriteRotation ∧
    (([1, 2, 3] : List ℝ).foldl updateOrbitItem activeNoneItem).spriteRotation =
      activeNoneItem.spriteRotation :=
  ⟨updateOrbitItem_orientation_policy.1 activeOverrideItem 2 rfl
     (by norm_num [activeOverrideItem, inactiveOverrideItem]) (Or.inl rfl),
   updateOrbitItem_orientation_policy.2.1 activeNoneItem 2 rfl
     (by norm_num [activeNoneItem, inactiveOverrideItem])
     (orient_guard_false (Or.inl rfl)),
   updateOrbitItem_orientation_policy.2.2 activeNoneItem [1, 2, 3] (Or.inl rfl)⟩

lemma atan2_mem_Ioc (y x : ℝ) : atan2 y x ∈ Set.Ioc (-Real.pi) Real.pi :=
  ⟨Complex.neg_pi_lt_arg _, Complex.arg_le_pi _⟩

lemma atan2_mul_sin_cos {R θ : ℝ} (hR : 0 < R)
    (hθ : θ ∈ Set.Ioc (-Real.pi) Real.pi) :
    atan2 (R * Real.sin θ) (R * Real.cos θ) = θ := by
  unfold atan2
  have h1 : (⟨R * Real.cos θ, R * Real.sin θ⟩ : ℂ) =
      (R : ℂ) * (Complex.cos θ + Complex.sin θ * Complex.I) := by
    apply Complex.ext <;>
      simp [Complex.cos_ofReal_re, Complex.sin_ofReal_re, Complex.cos_ofReal_im,
        Complex.sin_ofReal_im]
  rw [h1, Complex.arg_mul_cos_add_sin_mul_I hR hθ]

lemma recomputeOrbitItem_radius (item : OrbitItem) (t : ℝ) :
    (recomputeOrbitItem item t).radius = recomputedRadius item := by
  simp only [recomputeOrbitItem]
  split_ifs <;> rfl

/-- Claim C2: when the recomputed radius is positive (the guard under which
the recompute rebases the phase and repositions the sprite), the recompute at
a fixed elapsed time preserves the sprite's angular position: the rebased
phase evaluated through the per-frame formula at the current elapsed time
reproduces the angle the sprite had relative to the old center, and the
sprite's angle relative to the new center after the recompute equals that
same old angle exactly (in exact real arithmetic). -/
theorem recomputeOrbitItem_preserves_angle (item : OrbitItem) (t : ℝ)
    (hrad : 0 < (recomputeOrbitItem item t).radius) :
    (recomputeOrbitItem item t).basePhase +
        ((recomputeOrbitItem item t).direction : ℝ) *
          (recomputeOrbitItem item t).radPerSecond * t =
      atan2 (item.spriteY - (item.centerY : ℝ)) (item.spriteX - (item.centerX : ℝ)) ∧
    atan2
        ((recomputeOrbitItem item t).spriteY -
          ((recomputeOrbitItem item t).centerY : ℝ))
        ((recomputeOrbitItem item t).spriteX -
          ((recomputeOrbitItem item t).centerX : ℝ)) =
      atan2 (item.spriteY - (item.centerY : ℝ)) (item.spriteX - (item.centerX : ℝ)) := by
  have hR : 0 < recomputedRadius item := by
    rwa [recomputeOrbitItem_radius item t] at hrad
  constructor
  · simp only [recomputeOrbitItem, if_pos hR]
    ring
  · simp only [recomputeOrbitItem, if_pos hR]
    have e1 : ∀ c R s : ℝ, c + R * s - c = R * s := by
      intro c R s
      ring
    rw [e1, e1]
    exact atan2_mul_sin_cos hR (atan2_mem_Ioc _ _)

/-- Witness for claim C2 at a concrete item. -/
theorem recomputeOrbitItem_preserves_angle_witness :
    0 < (recomputeOrbitItem resizeDemoItem 0).radius ∧
    ((recomputeOrbitItem resizeDemoItem 0).basePhase +
        ((recomputeOrbitItem resizeDemoItem 0).direction : ℝ) *
          (recomputeOrbitItem resizeDemoItem 0).radPerSecond * 0 =
      atan2 (resizeDemoItem.spriteY - (resizeDemoItem.centerY : ℝ))
        (resizeDemoItem.spriteX - (resizeDemoItem.centerX : ℝ))) ∧
    (atan2
        ((recomputeOrbitItem resizeDemoItem 0).spriteY -
          ((recomputeOrbitItem resizeDemoItem 0).centerY : ℝ))
        ((recomputeOrbitItem resizeDemoItem 0).spriteX -
          ((recomputeOrbitItem resizeDemoItem 0).centerX : ℝ)) =
      atan2 (resizeDemoItem.spriteY - (resizeDemoItem.centerY : ℝ))
        (resizeDemoItem.spriteX - (resizeDemoItem.centerX : ℝ))) := by
  have hc : recomputedCenter resizeDemoItem = (0, 0) := by
    norm_num [recomputedCenter, resizeDemoItem, percentToStageCoords]
  have hs : recomputedStart resizeDemoItem = (1024, 0) := by
    norm_num [recomputedStart, recomputedCenter, resizeDemoItem, percentToStageCoords,
      projectToRectBorder]
  have hpos : 0 < (recomputeOrbitItem resizeDemoItem 0).radius := by
    rw [recomputeOrbitItem_radius, recomputedRadius, hs, hc]
    norm_num
  exact ⟨hpos, (recomputeOrbitItem_preserves_angle resizeDemoItem 0 hpos).1,
    (recomputeOrbitItem_preserves_angle resizeDemoItem 0 hpos).2⟩


lemma createOrbitItem_spinRpm_eq (layer : BuiltLayer) (m : List (Nat × ℚ))
    (item : OrbitItem) (h : createOrbitItem layer m = some item) :
    item.spinRpm = (List.lookup layer.spriteId m).getD 0 := by
  simp only [createOrbitItem] at h
  split_ifs at h <;> try exact Option.noConfusion h
  all_goals
    obtain rfl := Option.some_inj.mp h
    rfl

lemma createOrbitConfig_snapshotDemo : createOrbitConfig snapshotDemoLayer.cfg =
    { rpm := 10
      direction := .cw
      centerPercentX := 50
      centerPercentY := 50
      phaseDegrees := .nullish
      orientPolicy := .auto
      orientDegrees := .nullish
      enabled := true } := by
  norm_num [createOrbitConfig, snapshotDemoLayer, clampRpm60, JSNum.coerceToNumber,
    JSNum.isFiniteB, JSNum.val, clamp, min_def, max_def]
  intro hcontra
  exact absurd hcontra (by decide)

lemma createOrbitItem_snapshotDemo_ne_none :
    createOrbitItem snapshotDemoLayer [] ≠ none := by
  simp only [createOrbitItem, createOrbitConfig_snapshotDemo]
  norm_num [snapshotDemoLayer, percentToStageCoords, projectToRectBorder]
  exact Option.some_ne_none _

/-- Claim C4 (code bug): OrbitProcessor.init constructs its per-sprite spin
map as a freshly created empty map and never reads the SpinL processor,
despite its own comment announcing that it gets spin RPM data from SpinL;
the spec requires the snapshot to equal the Spin processor's clamped value.
On a one-layer scene with spinRPM 30 and orbitRPM 10 the Spin processor
records 30 for the sprite while the orbit item's snapshot is 0. -/
theorem orbitInit_spin_snapshot_zero :
    (buildSpinSystem [snapshotDemoLayer]).2 = [(0, 30)] ∧
    ((orbitProcessorInit [snapshotDemoLayer]).items.map fun i => i.spinRpm) = [0] ∧
    (30 : ℚ) ≠ 0 := by
  refine ⟨?_, ?_, by norm_num⟩
  · have h30 : clampRpm60 (.num 30) = 30 :=
      clampRpm60_num_identity (by norm_num) (by norm_num)
    simp [buildSpinSystem, createSpinConfig, snapshotDemoLayer, h30]
  · obtain ⟨item, hitem⟩ :=
      Option.ne_none_iff_exists'.mp createOrbitItem_snapshotDemo_ne_none
    have hval := createOrbitItem_spinRpm_eq snapshotDemoLayer [] item hitem
    simp [orbitProcessorInit, hitem, hval, List.lookup]

/-- Counterexample to claim C8 as stated: the glow aura drawable is created
with the normalised config alpha written as-is, with no clamp; config alpha
2 is written as 2, outside the unit interval. -/
theorem glowAura_alpha_unclamped_counterexample :
    glowAuraCreationAlpha
        (normalizeGlow { color := none, alpha := some 2, scale := none, pulseMs := none }) =
      2 ∧
    ¬(glowAuraCreationAlpha
        (normalizeGlow { color := none, alpha := some 2, scale := none, pulseMs := none }) ≤
        1) := by
  constructor
  · rfl
  · norm_num [glowAuraCreationAlpha, normalizeGlow]

/-- Claim C8, amended.  The alphas the Effect processor writes per frame are
clamped or bounded into the unit interval: the basic pipeline clamps its
composite alpha before the write, and the shockwave fade alpha always lies
in the unit interval.  The aura alphas written once at creation are not
clamped below: glow writes the normalised config alpha verbatim and bloom
writes min(1, 0.3 + 0.4 strength), capped above only — out-of-range config
values reach the drawable, as the counterexample shows. -/
theorem effect_alpha_clamping :
    (∀ (specs : List BasicSpec) (px py e base : ℝ),
        0 ≤ basicWrittenAlpha specs px py e base ∧
          basicWrittenAlpha specs px py e base ≤ 1) ∧
    (∀ (p : ℚ) (e : ℝ), 0 ≤ shockwaveFadeAlpha p e ∧ shockwaveFadeAlpha p e ≤ 1) ∧
    (∀ g : GlowRaw, glowAuraCreationAlpha (normalizeGlow g) = g.alpha.getD (2 / 5)) ∧
    (∀ b : BloomRaw, bloomAuraCreationAlpha (normalizeBloom b) ≤ 1) := by
  refine ⟨?_, ?_, fun g => rfl, fun b => min_le_left _ _⟩
  · intro specs px py e base
    exact ⟨le_max_left _ _, max_le (by norm_num) (min_le_left _ _)⟩
  · intro p e
    simp only [shockwaveFadeAlpha]
    constructor
    · linarith [Real.neg_one_le_cos
        (Real.pi * (jsRem e ((p : ℝ) / 1000) / ((p : ℝ) / 1000)))]
    · linarith [Real.cos_le_one
        (Real.pi * (jsRem e ((p : ℝ) / 1000) / ((p : ℝ) / 1000)))]


/-- Witness for claim C10 at concrete inputs: one active RPM-30 item, three
unit ticks with a toggle off and back on between them. -/
theorem spinToggle_does_not_pause_elapsed_witness :
    ((spinTick { items := [spinDemoItem], rpmBySprite := [], elapsedTime := 0 } 1).elapsedTime
        = 0 + 1) ∧
    ((spinTick (spinToggleSpin
        (spinTick { items := [spinDemoItem], rpmBySprite := [], elapsedTime := 0 } 1)
        spinDemoItem.layerId) 1).elapsedTime = 0 + 1 + 1) ∧
    (∀ j ∈ (spinTick (spinToggleSpin
        (spinTick { items := [spinDemoItem], rpmBySprite := [], elapsedTime := 0 } 1)
        spinDemoItem.layerId) 1).items,
        j.spriteRotation =
          spinDemoItem.baseRotation +
            (spinDemoItem.direction : ℝ) * spinDemoItem.radPerSecond * (0 + 1)) ∧
    ((spinTick (spinToggleSpin (spinTick (spinToggleSpin
        (spinTick { items := [spinDemoItem], rpmBySprite := [], elapsedTime := 0 } 1)
        spinDemoItem.layerId) 1) spinDemoItem.layerId) 1).elapsedTime = 0 + 1 + 1 + 1) ∧
    (∀ j ∈ (spinTick (spinToggleSpin (spinTick (spinToggleSpin
        (spinTick { items := [spinDemoItem], rpmBySprite := [], elapsedTime := 0 } 1)
        spinDemoItem.layerId) 1) spinDemoItem.layerId) 1).items,
        j.spriteRotation =
          spinDemoItem.baseRotation +
            (spinDemoItem.direction : ℝ) * spinDemoItem.radPerSecond * (0 + 1 + 1 + 1)) :=
  spinToggle_does_not_pause_elapsed spinDemoItem 0 1 1 1 rfl

end Anim
